import Mathlib

/-!
# Verification of the auto-dubbing job pipeline and timeline assembler

Shallow embedding of the core of the `backend/` FastAPI dubbing service:

* `concatenate_audio_with_timing` (backend/services/video.py) — the timeline
  assembler, including its numpy slice/assignment semantics;
* `run_voice_generation`'s per-segment synthesis loop and final status
  (backend/routers/dubbing.py; `TTSService.generate_segments` in
  backend/services/tts.py has the same per-segment skip/drop logic);
* the in-memory job store (`update_job`), the `generate_voice` endpoint's
  transition check, and `upload_video` validation (backend/routers/dubbing.py);
* `segments_to_srt` / `_seconds_to_srt_time` (backend/services/transcription.py).

Python floats are modelled as exact rationals (`ℚ`); `int(x)` is truncation
toward zero, `round(x)` is Python's banker's rounding, `x // y` and `x % y`
are floor division and the floor-signed remainder.  Python / numpy list
slicing and numpy slice assignment (with scalar broadcasting and its shape
mismatch error) are modelled explicitly on `List ℚ`.
-/

deriving instance DecidableEq for Except

/-! ## Python numeric primitives -/

/-- Python `int(x)` applied to a (real-valued) float: truncation toward zero. -/
def pyint (x : ℚ) : ℤ := if 0 ≤ x then ⌊x⌋ else ⌈x⌉

/-- Python `round(x)`: round half to even (banker's rounding). -/
def pyround (x : ℚ) : ℤ :=
  let f := ⌊x⌋
  let r := x - f
  if r < 1/2 then f
  else if 1/2 < r then f + 1
  else if f % 2 = 0 then f else f + 1

/-- Python `x // y` on nonzero `y`: floor division. -/
def pyfloordiv (x y : ℚ) : ℤ := ⌊x / y⌋

/-- Python `x % y` for `y > 0`: remainder with the sign of the divisor,
`x - y * (x // y)`. -/
def pymod (x y : ℚ) : ℚ := x - y * (⌊x / y⌋ : ℤ)

/-! ## Python / numpy slice semantics on 1-d arrays -/

/-- Normalize a Python slice bound against an array of length `len`:
negative indices count from the end (clamped at 0), positive ones are
clamped at `len`. -/
def normIdx (i : ℤ) (len : ℕ) : ℕ :=
  if i < 0 then ((len : ℤ) + i).toNat else min i.toNat len

/-- Python `a[i:j]`. -/
def pySlice (a : List ℚ) (i j : ℤ) : List ℚ :=
  let s := normIdx i a.length
  let e := normIdx j a.length
  (a.drop s).take (e - s)

/-- numpy slice assignment `dest[i:j] = src` for 1-d float arrays.
If the shapes agree the slice is overwritten; a length-1 `src` broadcasts
over the slice; any other mismatch raises
`ValueError: could not broadcast input array`. -/
def pyAssign (dest : List ℚ) (i j : ℤ) (src : List ℚ) : Except String (List ℚ) :=
  let s := normIdx i dest.length
  let e := normIdx j dest.length
  let n := e - s
  if src.length = n then
    Except.ok (dest.take s ++ src ++ dest.drop (s + n))
  else if src.length = 1 then
    Except.ok (dest.take s ++ List.replicate n (src.headD 0) ++ dest.drop (s + n))
  else
    Except.error "could not broadcast input array"

/-- Model of `np.linspace(0, stop, num).astype(int)`: `num` evenly spaced points from
`0` to `stop` inclusive, each truncated toward zero.  `num = 1` yields the
single point `0`. -/
def linspace_trunc (stop : ℤ) (num : ℕ) : List ℤ :=
  (List.range num).map fun (i : ℕ) =>
    if num = 1 then (0 : ℤ) else pyint ((i : ℚ) * (stop : ℚ) / ((num : ℚ) - 1))

/-! ## Timeline assembler (VideoService.concatenate_audio_with_timing) -/

/-- A loaded audio file: `sf.read(path)` returns the sample array and the
file's native sample rate. -/
structure AudioClip where
  samples : List ℚ
  rate : ℕ
  deriving DecidableEq

/-- One entry of the `segments` list consumed by the assembler: `audio_path`
and `start` are the only fields it reads.  `audio = none` models a missing
`audio_path` key or a path that does not exist on disk. -/
structure SynthSeg where
  audio : Option AudioClip
  start : ℚ
  deriving DecidableEq

/-- The resampling branch of `concatenate_audio_with_timing`:
`ratio = sample_rate / sr`, `new_length = int(len(a) * ratio)`,
`indices = np.linspace(0, len(a) - 1, new_length).astype(int)`, `a[indices]`. -/
def resample (a : List ℚ) (sr out_rate : ℕ) : List ℚ :=
  let ratio : ℚ := (out_rate : ℚ) / (sr : ℚ)
  let new_length := (pyint ((a.length : ℚ) * ratio)).toNat
  (linspace_trunc ((a.length : ℤ) - 1) new_length).map fun i => a.getD i.toNat 0

/-- The body of the assembler's `for seg in segments` loop, acting on the
accumulated output buffer: skip a segment without a readable file, resample
if the native rate differs, then
`output_audio[start_sample:end_sample] = segment_audio[:segment_length]`. -/
def assembleStep (sample_rate : ℕ) (total_samples : ℤ) (buf : List ℚ)
    (seg : SynthSeg) : Except String (List ℚ) :=
  match seg.audio with
  | none => Except.ok buf
  | some clip =>
    let segment_audio :=
      if clip.rate ≠ sample_rate then resample clip.samples clip.rate sample_rate
      else clip.samples
    let start_sample := pyint (seg.start * (sample_rate : ℚ))
    let end_sample := min (start_sample + (segment_audio.length : ℤ)) total_samples
    let segment_length := end_sample - start_sample
    pyAssign buf start_sample end_sample (pySlice segment_audio 0 segment_length)

/-- The assembler's `for seg in segments` loop threading the output buffer;
an exception raised by any iteration aborts the whole call. -/
def assembleLoop (sample_rate : ℕ) (total_samples : ℤ) (buf : List ℚ) :
    List SynthSeg → Except String (List ℚ)
  | [] => Except.ok buf
  | seg :: rest =>
    match assembleStep sample_rate total_samples buf seg with
    | Except.error e => Except.error e
    | Except.ok buf2 => assembleLoop sample_rate total_samples buf2 rest

/-- Model of `VideoService.concatenate_audio_with_timing` (backend/services/video.py):
allocates `np.zeros(int(total_duration * sample_rate))` and writes every
segment's (possibly resampled) samples at offset
`int(seg.start * sample_rate)`, truncated at the buffer end.
`np.zeros` of a negative size raises `ValueError`. -/
def concatenate_audio_with_timing (segments : List SynthSeg)
    (total_duration : ℚ) (sample_rate : ℕ) : Except String (List ℚ) :=
  let total_samples := pyint (total_duration * (sample_rate : ℚ))
  if total_samples < 0 then Except.error "negative dimensions are not allowed"
  else assembleLoop sample_rate total_samples (List.replicate total_samples.toNat 0) segments

/-! ## Job data model (backend/models/schemas.py, backend/routers/dubbing.py) -/

/-- Model of `JobStatus` (backend/models/schemas.py). -/
inductive JobStatus where
  | pending
  | uploading
  | transcribing
  | transcribed
  | generating_voice
  | voice_generated
  | merging
  | completed
  | failed
  deriving DecidableEq

/-- One transcript segment `{id, start, end, text}`.  `id` is read with
`seg.get("id", i)` in the synthesis loop, hence optional here. -/
structure TransSeg where
  id : Option ℤ
  start : ℚ
  «end» : ℚ
  text : String
  deriving DecidableEq

/-- The `transcript` value stored on a job after transcription. -/
structure Transcript where
  language : String
  full_text : String
  segments : List TransSeg
  srt : String
  deriving DecidableEq

/-- A job record: the dict created by `upload_video` plus every key any later
`update_job` call can add (absent keys are modelled as `none`).  Timestamps
are abstract ticks. -/
structure Job where
  job_id : String
  status : JobStatus
  progress : ℤ
  message : String
  created_at : ℕ
  updated_at : ℕ
  video_filename : String
  video_path : String
  transcript : Option Transcript := none
  audio_path : Option String := none
  voiceover_path : Option String := none
  voice_settings : Option (String × String × ℚ) := none
  output_path : Option String := none
  output_url : Option String := none
  error : Option String := none
  deriving DecidableEq

/-- The `**kwargs` of one `update_job` call: the partial set of fields to
overwrite (a `none` field is an absent keyword). -/
structure JobPatch where
  status : Option JobStatus := none
  progress : Option ℤ := none
  message : Option String := none
  transcript : Option Transcript := none
  audio_path : Option String := none
  voiceover_path : Option String := none
  voice_settings : Option (String × String × ℚ) := none
  output_path : Option String := none
  output_url : Option String := none
  error : Option String := none
  deriving DecidableEq

/-- Model of `jobs[job_id].update(kwargs)` followed by
`jobs[job_id]["updated_at"] = datetime.utcnow()`. -/
def applyPatch (j : Job) (p : JobPatch) (now : ℕ) : Job :=
  { j with
    status := p.status.getD j.status
    progress := p.progress.getD j.progress
    message := p.message.getD j.message
    transcript := (p.transcript.map some).getD j.transcript
    audio_path := (p.audio_path.map some).getD j.audio_path
    voiceover_path := (p.voiceover_path.map some).getD j.voiceover_path
    voice_settings := (p.voice_settings.map some).getD j.voice_settings
    output_path := (p.output_path.map some).getD j.output_path
    output_url := (p.output_url.map some).getD j.output_url
    error := (p.error.map some).getD j.error
    updated_at := now }

/-- Model of `update_job` (backend/routers/dubbing.py): `if job_id in jobs:` apply the
partial update and stamp `updated_at`; an unknown id falls through silently. -/
def update_job (jobs : List (String × Job)) (job_id : String) (p : JobPatch)
    (now : ℕ) : List (String × Job) :=
  if (List.lookup job_id jobs).isSome then
    jobs.map fun kv => if kv.1 = job_id then (kv.1, applyPatch kv.2 p now) else kv
  else jobs

/-- The error responses the dubbing router raises synchronously:
404 job-not-found, 400 on an illegal stage transition, and other 400s. -/
inductive ApiError where
  | not_found
  | invalid_transition
  | bad_request
  deriving DecidableEq

/-- The synchronous part of the `generate_voice` endpoint
(backend/routers/dubbing.py): 404 for an unknown job, 400 unless the status
is `transcribed` or `voice_generated`, 400 without a transcript; otherwise
flip the job to `generating_voice` / progress 10 and acknowledge.  Returns
the response together with the (possibly updated) job table. -/
def generate_voice (jobs : List (String × Job)) (job_id : String) (now : ℕ) :
    Except ApiError String × List (String × Job) :=
  match List.lookup job_id jobs with
  | none => (Except.error ApiError.not_found, jobs)
  | some job =>
    if ¬ (job.status = JobStatus.transcribed ∨ job.status = JobStatus.voice_generated) then
      (Except.error ApiError.invalid_transition, jobs)
    else if job.transcript = none then
      (Except.error ApiError.bad_request, jobs)
    else
      (Except.ok "Voice generation started",
        update_job jobs job_id
          { status := some JobStatus.generating_voice, progress := some 10,
            message := some "Starting voice generation..." } now)

/-! ## Voice-generation stage (run_voice_generation, backend/routers/dubbing.py) -/

/-- Python `text.strip()`: remove leading and trailing whitespace. -/
def pystrip (s : String) : String :=
  String.mk (((s.data.dropWhile Char.isWhitespace).reverse.dropWhile
    Char.isWhitespace).reverse)

/-- Zero-padding to a fixed width, as the code's `f`-string format `04d` does for the non-negative integers it
formats. -/
def pad (width : ℕ) (n : ℤ) : String :=
  let s := toString n
  if s.length < width then String.mk (List.replicate (width - s.length) '0') ++ s else s

/-- The per-segment output path `segments_dir / segment_<i:04d>.wav`. -/
def segment_file (i : ℕ) : String := "segments/segment_" ++ pad 4 (i : ℤ) ++ ".wav"

/-- A synthesized segment appended to `generated_segments`:
`{id, start, end, audio_path, text}`. -/
structure GenSeg where
  id : ℤ
  start : ℚ
  «end» : ℚ
  audio_path : String
  text : String
  deriving DecidableEq

/-- The `for i, seg in enumerate(segments)` loop of `run_voice_generation`:
skip segments whose stripped text is empty, call TTS (the collaborator
oracle `synth`; `none` models `generate_to_file` raising, in which case the
failure is logged and the segment dropped), and collect
`{id, start, end, audio_path, text}` with the synthesized clip. -/
def voiceGenLoop (synth : ℕ → Option AudioClip) :
    ℕ → List TransSeg → List (GenSeg × AudioClip)
  | _, [] => []
  | i, seg :: rest =>
    let text := pystrip seg.text
    if text = "" then voiceGenLoop synth (i + 1) rest
    else
      match synth i with
      | none => voiceGenLoop synth (i + 1) rest
      | some clip =>
        (⟨seg.id.getD (i : ℤ), seg.start, seg.«end», segment_file i, text⟩, clip) ::
          voiceGenLoop synth (i + 1) rest

/-- Model of `run_voice_generation` (backend/routers/dubbing.py), with the
collaborators abstracted: `synth i` is segment `i`'s TTS call,
`video_duration` the probed duration.  After the loop the generated clips
are assembled with `concatenate_audio_with_timing`; if nothing in the stage
raised, the job ends `voice_generated`, and an uncaught exception (e.g. from
the assembler) ends it `failed`.  Returns the final status and the
`generated_segments` list. -/
def run_voice_generation (segments : List TransSeg) (synth : ℕ → Option AudioClip)
    (video_duration : ℚ) (sample_rate : ℕ) : JobStatus × List GenSeg :=
  let gen := voiceGenLoop synth 0 segments
  match concatenate_audio_with_timing (gen.map fun p => ⟨some p.2, p.1.start⟩)
      video_duration sample_rate with
  | Except.ok _ => (JobStatus.voice_generated, gen.map Prod.fst)
  | Except.error _ => (JobStatus.failed, gen.map Prod.fst)

/-- The per-segment progress written inside the loop:
`20 + int((i / total_segments) * 60)`. -/
def voice_progress (i total_segments : ℕ) : ℤ :=
  20 + pyint ((i : ℚ) / (total_segments : ℚ) * 60)

/-- Every constant progress value written by `update_job` calls in
backend/routers/dubbing.py, in source order: upload (0), start_transcription
(10), run_transcription (20, 40, 80, 100), generate_voice (10),
run_voice_generation (20, 85, 100), merge_video (10), run_video_merge
(30, 100).  The failure handlers update status without touching progress. -/
def dubbing_progress_constants : List ℤ :=
  [0, 10, 20, 40, 80, 100, 10, 20, 85, 100, 10, 30, 100]

/-! ## Upload validation (upload_video, backend/routers/dubbing.py) -/

/-- Constant `ALLOWED_VIDEO_EXTENSIONS` (backend/config.py). -/
def ALLOWED_VIDEO_EXTENSIONS : List String := [".mp4", ".mkv", ".avi", ".mov", ".webm"]

/-- Constant `MAX_UPLOAD_SIZE` (backend/config.py): 500 MB. -/
def MAX_UPLOAD_SIZE : ℕ := 500 * 1024 * 1024

/-- Model of `upload_video` (backend/routers/dubbing.py): reject a disallowed
extension, then reject an oversized body, and only then write the file and
insert the `pending` job record.  `ext` is `Path(file.filename).suffix.lower()`,
`saved_files` tracks the files written to disk, `job_id` the generated uuid. -/
def upload_video (jobs : List (String × Job)) (saved_files : List String)
    (filename ext : String) (content_size : ℕ) (job_id : String) (now : ℕ) :
    Except ApiError String × List (String × Job) × List String :=
  if ext ∉ ALLOWED_VIDEO_EXTENSIONS then
    (Except.error ApiError.bad_request, jobs, saved_files)
  else if MAX_UPLOAD_SIZE < content_size then
    (Except.error ApiError.bad_request, jobs, saved_files)
  else
    let file_path := "uploads/" ++ job_id ++ "/original" ++ ext
    let job : Job :=
      { job_id := job_id, status := JobStatus.pending, progress := 0,
        message := "Video uploaded successfully", created_at := now,
        updated_at := now, video_filename := filename, video_path := file_path,
        transcript := none, output_url := none, error := none }
    (Except.ok job_id, jobs ++ [(job_id, job)], saved_files ++ [file_path])

/-! ## Subtitle rendering (TranscriptionService, backend/services/transcription.py) -/

/-- Model of `_seconds_to_srt_time`: `HH:MM:SS,mmm` from
`int(seconds // 3600)`, `int((seconds % 3600) // 60)`, `int(seconds % 60)`,
`int((seconds % 1) * 1000)`. -/
def seconds_to_srt_time (seconds : ℚ) : String :=
  let hours := pyint ((pyfloordiv seconds 3600 : ℤ) : ℚ)
  let minutes := pyint ((pyfloordiv (pymod seconds 3600) 60 : ℤ) : ℚ)
  let secs := pyint (pymod seconds 60)
  let millis := pyint (pymod seconds 1 * 1000)
  pad 2 hours ++ ":" ++ pad 2 minutes ++ ":" ++ pad 2 secs ++ "," ++ pad 3 millis

/-- Model of `segments_to_srt`: for each segment (1-based `enumerate`) the lines
`index`, `start --> end`, `text`, `""`, all joined with `"\n".join`. -/
def segments_to_srt (segments : List TransSeg) : String :=
  let srt_lines :=
    (segments.enum.map fun p =>
      [toString (p.1 + 1),
        seconds_to_srt_time p.2.start ++ " --> " ++ seconds_to_srt_time p.2.«end»,
        p.2.text,
        ""]).flatten
  String.intercalate "\n" srt_lines

/-! ## Basic lemmas about the numpy slice-assignment model -/

theorem normIdx_le (i : ℤ) (len : ℕ) : normIdx i len ≤ len := by
  unfold normIdx
  split
  · omega
  · exact min_le_right _ _

theorem normIdx_natCast (k len : ℕ) : normIdx (k : ℤ) len = min k len := by
  unfold normIdx
  rw [if_neg (by omega), Int.toNat_natCast]

theorem pyAssign_length {dest src : List ℚ} {i j : ℤ} {out : List ℚ}
    (h : pyAssign dest i j src = Except.ok out) : out.length = dest.length := by
  have h1 := normIdx_le i dest.length
  have h2 := normIdx_le j dest.length
  simp only [pyAssign] at h
  split at h
  · injection h with h
    subst h
    simp only [List.length_append, List.length_take, List.length_drop]
    omega
  · split at h
    · injection h with h
      subst h
      simp only [List.length_append, List.length_take, List.length_drop,
        List.length_replicate]
      omega
    · exact Except.noConfusion h

theorem assembleStep_length {sample_rate : ℕ} {total_samples : ℤ} {buf : List ℚ}
    {seg : SynthSeg} {out : List ℚ}
    (h : assembleStep sample_rate total_samples buf seg = Except.ok out) :
    out.length = buf.length := by
  rcases seg with ⟨audio, start⟩
  cases audio with
  | none =>
    simp only [assembleStep] at h
    injection h with h
    rw [h]
  | some clip =>
    simp only [assembleStep] at h
    exact pyAssign_length h

theorem assembleLoop_length (sample_rate : ℕ) (total_samples : ℤ) :
    ∀ (segs : List SynthSeg) (buf out : List ℚ),
      assembleLoop sample_rate total_samples buf segs = Except.ok out →
      out.length = buf.length := by
  intro segs
  induction segs with
  | nil =>
    intro buf out h
    simp only [assembleLoop] at h
    injection h with h
    rw [h]
  | cons a as ih =>
    intro buf out h
    simp only [assembleLoop] at h
    cases hstep : assembleStep sample_rate total_samples buf a with
    | error e => rw [hstep] at h; exact Except.noConfusion h
    | ok buf2 =>
      rw [hstep] at h
      exact (ih buf2 out h).trans (assembleStep_length hstep)

/-- C1 (counterexample): with no segments, `total_duration = 0.75` s and
`sample_rate = 1` Hz the assembled buffer has `int(0.75) = 0` samples, not
the `round(0.75) = 1` samples the claim demands. -/
theorem C1_counterexample :
    (concatenate_audio_with_timing [] (3/4) 1).map List.length ≠
      Except.ok (pyround ((3/4 : ℚ) * ((1 : ℕ) : ℚ))).toNat := by
  norm_num [concatenate_audio_with_timing, assembleLoop, pyint, pyround, Except.map] <;>
    decide

/-- C1 (amended): whenever `concatenate_audio_with_timing` returns a buffer,
that buffer has exactly `int(total_duration * sample_rate)` samples —
truncation toward zero, not rounding. -/
theorem C1_buffer_length (segments : List SynthSeg) (total_duration : ℚ)
    (sample_rate : ℕ) (buf : List ℚ)
    (h : concatenate_audio_with_timing segments total_duration sample_rate =
      Except.ok buf) :
    buf.length = (pyint (total_duration * (sample_rate : ℚ))).toNat := by
  simp only [concatenate_audio_with_timing] at h
  split at h
  · exact Except.noConfusion h
  · exact (assembleLoop_length _ _ _ _ _ h).trans (List.length_replicate _ _)

/-- C1 (witness): the amended theorem applied to an empty segment list with
`total_duration = 2` s and `sample_rate = 3` Hz. -/
theorem C1_witness :
    ([0, 0, 0, 0, 0, 0] : List ℚ).length = (pyint ((2 : ℚ) * ((3 : ℕ) : ℚ))).toNat :=
  C1_buffer_length [] 2 3 [0, 0, 0, 0, 0, 0]
    (by norm_num [concatenate_audio_with_timing, assembleLoop, pyint] <;> decide)

theorem pySlice_all (A : List ℚ) : pySlice A 0 ((A.length : ℕ) : ℤ) = A := by
  have h0 : normIdx 0 A.length = 0 := by
    unfold normIdx
    rw [if_neg (by omega)]
    omega
  have h1 : normIdx ((A.length : ℕ) : ℤ) A.length = A.length := by
    rw [normIdx_natCast]
    omega
  simp only [pySlice, h0, h1]
  simp [List.take_length]

theorem pyAssign_intArgs (dest src : List ℚ) (s : ℤ) (hs : 0 ≤ s)
    (hfit : s + (src.length : ℤ) ≤ (dest.length : ℤ)) :
    pyAssign dest s (s + (src.length : ℤ)) src =
      Except.ok (dest.take s.toNat ++ src ++ dest.drop (s.toNat + src.length)) := by
  have h1 : normIdx s dest.length = s.toNat := by
    unfold normIdx
    rw [if_neg (by omega)]
    exact min_eq_left (by omega)
  have h2 : normIdx (s + (src.length : ℤ)) dest.length = s.toNat + src.length := by
    unfold normIdx
    rw [if_neg (by omega)]
    have he : (s + (src.length : ℤ)).toNat = s.toNat + src.length := by omega
    rw [he]
    exact min_eq_left (by omega)
  simp only [pyAssign, h1, h2]
  rw [if_pos (by omega)]
  rw [Nat.add_sub_cancel_left]

theorem assembleStep_write (sample_rate sr : ℕ) (total_samples : ℤ)
    (buf a A : List ℚ) (start : ℚ)
    (hA : (if sr ≠ sample_rate then resample a sr sample_rate else a) = A)
    (hbuf : buf.length = total_samples.toNat)
    (hs : 0 ≤ pyint (start * (sample_rate : ℚ)))
    (hfit : pyint (start * (sample_rate : ℚ)) + (A.length : ℤ) ≤ total_samples) :
    assembleStep sample_rate total_samples buf ⟨some ⟨a, sr⟩, start⟩ =
      Except.ok (buf.take (pyint (start * (sample_rate : ℚ))).toNat ++ A ++
        buf.drop ((pyint (start * (sample_rate : ℚ))).toNat + A.length)) := by
  have hT : 0 ≤ total_samples := by omega
  have hfit2 : pyint (start * (sample_rate : ℚ)) + (A.length : ℤ) ≤ (buf.length : ℤ) := by
    omega
  simp only [assembleStep, hA]
  rw [min_eq_left hfit, add_sub_cancel_left, pySlice_all,
    pyAssign_intArgs buf A _ hs hfit2]

/-- C2 (counterexample): a clip of 7 samples at native rate `R1 = 4` resampled
into an assembly at `R2 = 1` yields `int(7 * 1/4) = 1` sample, not the
`round(1/4 * 7) = 2` samples the claim demands. -/
theorem C2_counterexample :
    ((resample [1, 2, 3, 4, 5, 6, 7] 4 1).length : ℤ) ≠
      pyround (((1 : ℕ) : ℚ) / ((4 : ℕ) : ℚ) * ((7 : ℕ) : ℚ)) := by
  norm_num [resample, linspace_trunc, pyint, pyround] <;> decide

/-- C2 (amended): a clip at a native rate `sr ≠ sample_rate` is resampled by
nearest-index selection to exactly `int(len * sample_rate/sr)` samples —
truncation, not rounding — and written into the output buffer starting at
sample offset `int(segment.start * sample_rate)` — truncation, not rounding
(shown for a segment that fits inside the buffer). -/
theorem C2_resample_and_offset (a : List ℚ) (sr sample_rate : ℕ)
    (start total_duration : ℚ)
    (hne : sr ≠ sample_rate)
    (hs : 0 ≤ pyint (start * (sample_rate : ℚ)))
    (hfit : pyint (start * (sample_rate : ℚ)) +
        ((resample a sr sample_rate).length : ℤ) ≤
      pyint (total_duration * (sample_rate : ℚ))) :
    (resample a sr sample_rate).length =
      (pyint ((a.length : ℚ) * ((sample_rate : ℚ) / (sr : ℚ)))).toNat ∧
    concatenate_audio_with_timing [⟨some ⟨a, sr⟩, start⟩] total_duration sample_rate =
      Except.ok (List.replicate (pyint (start * (sample_rate : ℚ))).toNat 0 ++
        resample a sr sample_rate ++
        List.replicate ((pyint (total_duration * (sample_rate : ℚ))).toNat -
          (pyint (start * (sample_rate : ℚ))).toNat -
          (resample a sr sample_rate).length) 0) := by
  have hT : 0 ≤ pyint (total_duration * (sample_rate : ℚ)) := by omega
  constructor
  · unfold resample
    rw [List.length_map]
    unfold linspace_trunc
    rw [List.length_map, List.length_range]
  · have hstep := assembleStep_write sample_rate sr
      (pyint (total_duration * (sample_rate : ℚ)))
      (List.replicate (pyint (total_duration * (sample_rate : ℚ))).toNat 0) a
      (resample a sr sample_rate) start (if_pos hne) (by simp) hs hfit
    simp only [concatenate_audio_with_timing]
    rw [if_neg (by omega)]
    simp only [assembleLoop, hstep]
    rw [List.take_replicate, List.drop_replicate]
    have h1 : min (pyint (start * (sample_rate : ℚ))).toNat
        (pyint (total_duration * (sample_rate : ℚ))).toNat =
        (pyint (start * (sample_rate : ℚ))).toNat := by omega
    have h2 : (pyint (total_duration * (sample_rate : ℚ))).toNat -
        ((pyint (start * (sample_rate : ℚ))).toNat +
          (resample a sr sample_rate).length) =
        (pyint (total_duration * (sample_rate : ℚ))).toNat -
          (pyint (start * (sample_rate : ℚ))).toNat -
          (resample a sr sample_rate).length := by omega
    rw [h1, h2]

/-- C2 (witness): the amended theorem at a 7-sample clip, native rate 4,
output rate 1, `start = 2` s, `total_duration = 10` s. -/
theorem C2_witness :
    (resample [1, 2, 3, 4, 5, 6, 7] 4 1).length =
      (pyint ((([1, 2, 3, 4, 5, 6, 7] : List ℚ).length : ℚ) *
        (((1 : ℕ) : ℚ) / ((4 : ℕ) : ℚ)))).toNat ∧
    concatenate_audio_with_timing [⟨some ⟨[1, 2, 3, 4, 5, 6, 7], 4⟩, 2⟩] 10 1 =
      Except.ok (List.replicate (pyint ((2 : ℚ) * ((1 : ℕ) : ℚ))).toNat 0 ++
        resample [1, 2, 3, 4, 5, 6, 7] 4 1 ++
        List.replicate ((pyint ((10 : ℚ) * ((1 : ℕ) : ℚ))).toNat -
          (pyint ((2 : ℚ) * ((1 : ℕ) : ℚ))).toNat -
          (resample [1, 2, 3, 4, 5, 6, 7] 4 1).length) 0) :=
  C2_resample_and_offset [1, 2, 3, 4, 5, 6, 7] 4 1 2 10 (by decide)
    (by norm_num [pyint])
    (by norm_num [resample, linspace_trunc, pyint] <;> decide)

/-- C3 (code behavior at the failing input): one segment of 5 samples (already
at the output rate) starting at `3.0` s in a `1.0` s / 1 Hz assembly.  The
claim (and the spec) say the segment contributes nothing and the call
completes; instead `output_audio[3:1] = segment_audio[:-2]` assigns a
3-element array to an empty slice and numpy raises `ValueError` (the code's
own `# Ensure we don't overflow` guard fails to prevent this). -/
theorem C3_overflow_crash :
    concatenate_audio_with_timing [⟨some ⟨[1, 1, 1, 1, 1], 1⟩, 3⟩] 1 1 =
      Except.error "could not broadcast input array" := by
  norm_num [concatenate_audio_with_timing, assembleLoop, assembleStep, pyAssign,
    pySlice, normIdx, pyint] <;> decide

/-- C4 (confirmed): segments are written in input-list order, and the second
segment of `[seg1, seg2]` owns every sample of its destination range in the
final buffer — wherever `seg1`'s range overlaps it, `seg2`'s samples win. -/
theorem C4_last_write_wins (seg1 : SynthSeg) (a2 : List ℚ)
    (start2 total_duration : ℚ) (sample_rate : ℕ) (buf : List ℚ)
    (hs : 0 ≤ pyint (start2 * (sample_rate : ℚ)))
    (hfit : pyint (start2 * (sample_rate : ℚ)) + (a2.length : ℤ) ≤
      pyint (total_duration * (sample_rate : ℚ)))
    (hok : concatenate_audio_with_timing [seg1, ⟨some ⟨a2, sample_rate⟩, start2⟩]
      total_duration sample_rate = Except.ok buf)
    (i : ℕ) (hi : i < a2.length) :
    buf[(pyint (start2 * (sample_rate : ℚ))).toNat + i]? = a2[i]? := by
  simp only [concatenate_audio_with_timing] at hok
  split at hok
  · exact Except.noConfusion hok
  · simp only [assembleLoop] at hok
    cases h1 : assembleStep sample_rate (pyint (total_duration * (sample_rate : ℚ)))
        (List.replicate (pyint (total_duration * (sample_rate : ℚ))).toNat 0) seg1 with
    | error e => simp only [h1] at hok; exact Except.noConfusion hok
    | ok b1 =>
      simp only [h1] at hok
      have hlen1 : b1.length = (pyint (total_duration * (sample_rate : ℚ))).toNat :=
        (assembleStep_length h1).trans (List.length_replicate _ _)
      have hstep2 := assembleStep_write sample_rate sample_rate
        (pyint (total_duration * (sample_rate : ℚ))) b1 a2 a2 start2
        (if_neg (by simp)) hlen1 hs hfit
      simp only [hstep2] at hok
      injection hok with hok
      subst hok
      have htake : (b1.take (pyint (start2 * (sample_rate : ℚ))).toNat).length =
          (pyint (start2 * (sample_rate : ℚ))).toNat := by
        rw [List.length_take]
        omega
      rw [List.getElem?_append_left (by rw [List.length_append, htake]; omega)]
      rw [List.getElem?_append_right (by rw [htake]; omega)]
      rw [htake, Nat.add_sub_cancel_left]

/-- C4 (witness): `[5,5,5]` written at offset 0 then `[7,7]` written at
offset 1 in a 4-sample buffer yield `[5,7,7,0]`; the overlap at index 1
holds the second segment's sample. -/
theorem C4_witness :
    ([5, 7, 7, 0] : List ℚ)[(pyint ((1 : ℚ) * ((1 : ℕ) : ℚ))).toNat + 0]? =
      ([7, 7] : List ℚ)[0]? :=
  C4_last_write_wins ⟨some ⟨[5, 5, 5], 1⟩, 0⟩ [7, 7] 1 4 1 [5, 7, 7, 0]
    (by norm_num [pyint]) (by norm_num [pyint])
    (by norm_num [concatenate_audio_with_timing, assembleLoop, assembleStep, pyAssign,
      pySlice, normIdx, pyint] <;> decide)
    0 (by decide)

/-- C5 (confirmed): with five segments of non-empty stripped text and the
TTS collaborator raising exactly on segment 2 (index 1), the synthesis loop
drops that segment, keeps segments 1, 3, 4, 5 in input order (a 4-element
result list), and — provided the rest of the stage raises nothing — the
stage ends `voice_generated`, not `failed`. -/
theorem C5_segment_failure_dropped (s1 s2 s3 s4 s5 : TransSeg)
    (synth : ℕ → Option AudioClip) (c0 c2 c3 c4 : AudioClip)
    (video_duration : ℚ) (sample_rate : ℕ)
    (h0 : synth 0 = some c0) (h1 : synth 1 = none) (h2 : synth 2 = some c2)
    (h3 : synth 3 = some c3) (h4 : synth 4 = some c4)
    (ht1 : pystrip s1.text ≠ "") (ht2 : pystrip s2.text ≠ "")
    (ht3 : pystrip s3.text ≠ "") (ht4 : pystrip s4.text ≠ "")
    (ht5 : pystrip s5.text ≠ "")
    (hconc : ∃ out, concatenate_audio_with_timing
        [⟨some c0, s1.start⟩, ⟨some c2, s3.start⟩, ⟨some c3, s4.start⟩,
          ⟨some c4, s5.start⟩] video_duration sample_rate = Except.ok out) :
    run_voice_generation [s1, s2, s3, s4, s5] synth video_duration sample_rate =
      (JobStatus.voice_generated,
        [⟨s1.id.getD 0, s1.start, s1.«end», segment_file 0, pystrip s1.text⟩,
         ⟨s3.id.getD 2, s3.start, s3.«end», segment_file 2, pystrip s3.text⟩,
         ⟨s4.id.getD 3, s4.start, s4.«end», segment_file 3, pystrip s4.text⟩,
         ⟨s5.id.getD 4, s5.start, s5.«end», segment_file 4, pystrip s5.text⟩]) := by
  obtain ⟨out, hout⟩ := hconc
  have hloop : voiceGenLoop synth 0 [s1, s2, s3, s4, s5] =
      [(⟨s1.id.getD 0, s1.start, s1.«end», segment_file 0, pystrip s1.text⟩, c0),
       (⟨s3.id.getD 2, s3.start, s3.«end», segment_file 2, pystrip s3.text⟩, c2),
       (⟨s4.id.getD 3, s4.start, s4.«end», segment_file 3, pystrip s4.text⟩, c3),
       (⟨s5.id.getD 4, s5.start, s5.«end», segment_file 4, pystrip s5.text⟩, c4)] := by
    simp [voiceGenLoop, h0, h1, h2, h3, h4, ht1, ht2, ht3, ht4, ht5]
  simp only [run_voice_generation, hloop, List.map_cons, List.map_nil, hout]

/-- C5 (witness): five concrete segments, synthesis failing exactly on
segment 2; the stage returns `voice_generated` with the four surviving
segments in order. -/
theorem C5_witness :
    run_voice_generation
      [⟨some 11, 0, 1, "one"⟩, ⟨some 12, 1, 2, "two"⟩, ⟨some 13, 2, 3, "three"⟩,
        ⟨some 14, 3, 4, "four"⟩, ⟨some 15, 4, 5, "five"⟩]
      (fun i => if i = 1 then none else some ⟨[1], 1⟩) 10 1 =
      (JobStatus.voice_generated,
        [⟨11, 0, 1, "segments/segment_0000.wav", "one"⟩,
         ⟨13, 2, 3, "segments/segment_0002.wav", "three"⟩,
         ⟨14, 3, 4, "segments/segment_0003.wav", "four"⟩,
         ⟨15, 4, 5, "segments/segment_0004.wav", "five"⟩]) := by
  have h := C5_segment_failure_dropped ⟨some 11, 0, 1, "one"⟩ ⟨some 12, 1, 2, "two"⟩
    ⟨some 13, 2, 3, "three"⟩ ⟨some 14, 3, 4, "four"⟩ ⟨some 15, 4, 5, "five"⟩
    (fun i => if i = 1 then none else some ⟨[1], 1⟩) ⟨[1], 1⟩ ⟨[1], 1⟩ ⟨[1], 1⟩ ⟨[1], 1⟩
    10 1 rfl rfl rfl rfl rfl (by decide) (by decide) (by decide) (by decide) (by decide)
    ⟨[1, 0, 1, 1, 1, 0, 0, 0, 0, 0], by
      norm_num [concatenate_audio_with_timing, assembleLoop, assembleStep, pyAssign,
        pySlice, normIdx, pyint] <;> decide⟩
  exact h

/-- C6 (confirmed): requesting `generate-voice` for a job whose status is
`pending` fails synchronously with the invalid-transition error and returns
the job table unchanged — no field of any job (status and progress included)
is modified. -/
theorem C6_pending_invalid_transition (jobs : List (String × Job)) (job_id : String)
    (job : Job) (now : ℕ) (hlook : List.lookup job_id jobs = some job)
    (hpending : job.status = JobStatus.pending) :
    generate_voice jobs job_id now = (Except.error ApiError.invalid_transition, jobs) := by
  simp [generate_voice, hlook, hpending]

/-- C6 (witness): a one-job table holding a `pending` job. -/
theorem C6_witness :
    generate_voice
      [("j1", ⟨"j1", JobStatus.pending, 0, "Video uploaded successfully", 0, 0,
        "demo.mp4", "uploads/j1/original.mp4", none, none, none, none, none, none,
        none⟩)] "j1" 9 =
      (Except.error ApiError.invalid_transition,
        [("j1", ⟨"j1", JobStatus.pending, 0, "Video uploaded successfully", 0, 0,
          "demo.mp4", "uploads/j1/original.mp4", none, none, none, none, none, none,
          none⟩)]) :=
  C6_pending_invalid_transition _ "j1"
    ⟨"j1", JobStatus.pending, 0, "Video uploaded successfully", 0, 0, "demo.mp4",
      "uploads/j1/original.mp4", none, none, none, none, none, none, none⟩
    9 (by decide) rfl

/-- C8 (counterexample): `update_job` on an id absent from the table returns
the table unchanged and signals nothing — its type has no error outcome at
all — instead of reporting NotFound as the claim demands. -/
theorem C8_counterexample :
    update_job
      [("a", ⟨"a", JobStatus.pending, 0, "m", 0, 0, "v.mp4", "p", none, none, none,
        none, none, none, none⟩)]
      "missing" ⟨some JobStatus.failed, none, none, none, none, none, none, none,
        none, some "boom"⟩ 7 =
      [("a", ⟨"a", JobStatus.pending, 0, "m", 0, 0, "v.mp4", "p", none, none, none,
        none, none, none, none⟩)] := by
  decide

/-- C8 (amended): `update_job` with a known id applies exactly the given
partial fields and always stamps the last-update time with the current
tick; with an unknown id it is a silent no-op (the table is returned
unchanged and no NotFound is reported — the function has no error channel). -/
theorem C8_update_semantics (jobs : List (String × Job)) (job_id : String)
    (p : JobPatch) (now : ℕ) :
    (List.lookup job_id jobs = none → update_job jobs job_id p now = jobs) ∧
    (∀ j, List.lookup job_id jobs = some j →
      List.lookup job_id (update_job jobs job_id p now) = some (applyPatch j p now) ∧
      (applyPatch j p now).updated_at = now) := by
  constructor
  · intro hnone
    simp [update_job, hnone]
  · intro j hsome
    refine ⟨?_, rfl⟩
    unfold update_job
    rw [if_pos (by simp [hsome])]
    induction jobs with
    | nil => exact Option.noConfusion hsome
    | cons kv rest ih =>
      by_cases hk : kv.1 = job_id
      · simp only [List.map_cons, if_pos hk]
        simp only [List.lookup, hk, beq_self_eq_true] at hsome ⊢
        injection hsome with hsome
        rw [hsome]
      · simp only [List.map_cons, if_neg hk]
        have hbeq : (job_id == kv.1) = false :=
          beq_eq_false_iff_ne.mpr fun h => hk h.symm
        simp only [List.lookup, hbeq] at hsome ⊢
        exact ih hsome

/-- C8 (witness): updating a known job id applies the patch and stamps
`updated_at` with the new tick. -/
theorem C8_witness :
    List.lookup "a"
      (update_job
        [("a", ⟨"a", JobStatus.pending, 0, "m", 0, 0, "v.mp4", "p", none, none, none,
          none, none, none, none⟩)]
        "a" ⟨some JobStatus.transcribing, some 10, some "Starting transcription...",
          none, none, none, none, none, none, none⟩ 7) =
      some (applyPatch
        ⟨"a", JobStatus.pending, 0, "m", 0, 0, "v.mp4", "p", none, none, none, none,
          none, none, none⟩
        ⟨some JobStatus.transcribing, some 10, some "Starting transcription...", none,
          none, none, none, none, none, none⟩ 7) ∧
    (applyPatch
        ⟨"a", JobStatus.pending, 0, "m", 0, 0, "v.mp4", "p", none, none, none, none,
          none, none, none⟩
        ⟨some JobStatus.transcribing, some 10, some "Starting transcription...", none,
          none, none, none, none, none, none⟩ 7).updated_at = 7 :=
  (C8_update_semantics
    [("a", ⟨"a", JobStatus.pending, 0, "m", 0, 0, "v.mp4", "p", none, none, none,
      none, none, none, none⟩)]
    "a" ⟨some JobStatus.transcribing, some 10, some "Starting transcription...", none,
      none, none, none, none, none, none⟩ 7).2
    ⟨"a", JobStatus.pending, 0, "m", 0, 0, "v.mp4", "p", none, none, none, none,
      none, none, none⟩ (by decide)

/-- C9 (confirmed): every constant progress value written by an `update_job`
call lies in `[0, 100]`, and the per-segment voice-generation progress
`20 + int((i / total_segments) * 60)` stays within `[20, 80]` (in fact it
never exceeds 79) for every `i < total_segments`. -/
theorem C9_progress_in_range :
    (∀ p ∈ dubbing_progress_constants, 0 ≤ p ∧ p ≤ 100) ∧
    (∀ i total_segments : ℕ, i < total_segments →
      20 ≤ voice_progress i total_segments ∧ voice_progress i total_segments ≤ 80) := by
  constructor
  · decide
  · intro i t hit
    have ht : (0 : ℚ) < (t : ℚ) := by
      have : 0 < t := Nat.pos_of_ne_zero (by omega)
      exact_mod_cast this
    have hx0 : (0 : ℚ) ≤ (i : ℚ) / (t : ℚ) * 60 := by positivity
    have hx : (i : ℚ) / (t : ℚ) * 60 < 60 := by
      have h1 : (i : ℚ) / (t : ℚ) < 1 := (div_lt_one ht).mpr (by exact_mod_cast hit)
      nlinarith
    unfold voice_progress pyint
    rw [if_pos hx0]
    have hf0 : 0 ≤ ⌊(i : ℚ) / (t : ℚ) * 60⌋ := Int.floor_nonneg.mpr hx0
    have hf : ⌊(i : ℚ) / (t : ℚ) * 60⌋ < 60 := Int.floor_lt.mpr (by exact_mod_cast hx)
    omega

/-- C9 (witness): segment 3 of 5 (`i = 2`, `total_segments = 5`). -/
theorem C9_witness : 20 ≤ voice_progress 2 5 ∧ voice_progress 2 5 ≤ 80 :=
  C9_progress_in_range.2 2 5 (by decide)

theorem lookup_append_singleton_of_none {β : Type} (l : List (String × β))
    (k : String) (v : β) (h : List.lookup k l = none) :
    List.lookup k (l ++ [(k, v)]) = some v := by
  induction l with
  | nil => simp [List.lookup]
  | cons kv rest ih =>
    by_cases hk : k == kv.1
    · simp only [List.lookup, hk] at h
      exact Option.noConfusion h
    · have hbeq : (k == kv.1) = false := by
        cases hbk : (k == kv.1) with
        | true => exact absurd hbk hk
        | false => rfl
      simp only [List.cons_append, List.lookup, hbeq] at h ⊢
      exact ih h

/-- C10 (confirmed): an upload with a disallowed extension or an oversized
body fails without creating a job or writing a file; a successful upload
returns the new job id, which is stored as a `pending` job whose
`video_path` was written to disk. -/
theorem C10_upload_validation (jobs : List (String × Job)) (saved_files : List String)
    (filename ext : String) (content_size : ℕ) (job_id : String) (now : ℕ) :
    ((ext ∉ ALLOWED_VIDEO_EXTENSIONS ∨ MAX_UPLOAD_SIZE < content_size) →
      upload_video jobs saved_files filename ext content_size job_id now =
        (Except.error ApiError.bad_request, jobs, saved_files)) ∧
    (∀ rid, (upload_video jobs saved_files filename ext content_size job_id now).1 =
        Except.ok rid →
      List.lookup job_id jobs = none →
      rid = job_id ∧
      List.lookup job_id
        (upload_video jobs saved_files filename ext content_size job_id now).2.1 =
        some ⟨job_id, JobStatus.pending, 0, "Video uploaded successfully", now, now,
          filename, "uploads/" ++ job_id ++ "/original" ++ ext, none, none, none,
          none, none, none, none⟩ ∧
      ("uploads/" ++ job_id ++ "/original" ++ ext) ∈
        (upload_video jobs saved_files filename ext content_size job_id now).2.2) := by
  constructor
  · intro h
    unfold upload_video
    rcases h with h | h
    · rw [if_pos h]
    · by_cases hext : ext ∈ ALLOWED_VIDEO_EXTENSIONS
      · rw [if_neg (by simpa using hext), if_pos h]
      · rw [if_pos hext]
  · intro rid hok hfresh
    unfold upload_video at hok ⊢
    by_cases hext : ext ∈ ALLOWED_VIDEO_EXTENSIONS
    · rw [if_neg (by simpa using hext)] at hok ⊢
      by_cases hsize : MAX_UPLOAD_SIZE < content_size
      · rw [if_pos hsize] at hok
        exact Except.noConfusion hok
      · rw [if_neg hsize] at hok ⊢
        injection hok with hok
        subst hok
        refine ⟨rfl, ?_, ?_⟩
        · exact lookup_append_singleton_of_none jobs job_id _ hfresh
        · simp
    · rw [if_pos hext] at hok
      exact Except.noConfusion hok

/-- C10 (witness): a fresh `.mp4` upload of 5 bytes is accepted and stored
as a `pending` job with its saved file. -/
theorem C10_witness :
    "j1" = "j1" ∧
    List.lookup "j1" (upload_video [] [] "demo.mp4" ".mp4" 5 "j1" 3).2.1 =
      some ⟨"j1", JobStatus.pending, 0, "Video uploaded successfully", 3, 3,
        "demo.mp4", "uploads/" ++ "j1" ++ "/original" ++ ".mp4", none, none, none,
        none, none, none, none⟩ ∧
    ("uploads/" ++ "j1" ++ "/original" ++ ".mp4") ∈
      (upload_video [] [] "demo.mp4" ".mp4" 5 "j1" 3).2.2 :=
  (C10_upload_validation [] [] "demo.mp4" ".mp4" 5 "j1" 3).2 "j1" (by decide) (by decide)

/-- C7 (counterexample): for the single segment
`{start: 0, end: 1.5, text: "Bonjour"}` the renderer returns
`"1\n00:00:00,000 --> 00:00:01,500\nBonjour\n"` — `"\n".join` puts nothing
after the final (empty) line, so the claimed trailing blank line
(`"...Bonjour\n\n"`) is absent. -/
theorem C7_counterexample :
    segments_to_srt [⟨some 0, 0, 3/2, "Bonjour"⟩] ≠
      "1\n00:00:00,000 --> 00:00:01,500\nBonjour\n\n" := by
  have h0 : seconds_to_srt_time 0 = "00:00:00,000" := by
    norm_num [seconds_to_srt_time, pyfloordiv, pymod, pyint] <;> decide
  have h15 : seconds_to_srt_time (3/2) = "00:00:01,500" := by
    norm_num [seconds_to_srt_time, pyfloordiv, pymod, pyint] <;> decide
  simp only [segments_to_srt, List.enum, List.enumFrom, List.map_cons, List.map_nil,
    List.flatten, h0, h15]
  decide

/-- C7 (amended): the subtitle renderer produces, for each segment in order,
a block of a 1-based index line, a `start --> end` line in `HH:MM:SS,mmm`
format, and the text line; consecutive blocks are separated by a blank line
but the final block ends with a single newline (no terminating blank line).
For `{start: 0, end: 1.5, text: "Bonjour"}` it returns exactly
`"1\n00:00:00,000 --> 00:00:01,500\nBonjour\n"`. -/
theorem C7_srt_format :
    segments_to_srt [⟨some 0, 0, 3/2, "Bonjour"⟩] =
      "1\n00:00:00,000 --> 00:00:01,500\nBonjour\n" ∧
    segments_to_srt [⟨some 0, 0, 3/2, "Bonjour"⟩, ⟨some 1, 2, 7/2, "Salut"⟩] =
      "1\n00:00:00,000 --> 00:00:01,500\nBonjour\n\n2\n00:00:02,000 --> 00:00:03,500\nSalut\n" := by
  have h0 : seconds_to_srt_time 0 = "00:00:00,000" := by
    norm_num [seconds_to_srt_time, pyfloordiv, pymod, pyint] <;> decide
  have h15 : seconds_to_srt_time (3/2) = "00:00:01,500" := by
    norm_num [seconds_to_srt_time, pyfloordiv, pymod, pyint] <;> decide
  have h2 : seconds_to_srt_time 2 = "00:00:02,000" := by
    norm_num [seconds_to_srt_time, pyfloordiv, pymod, pyint] <;> decide
  have h35 : seconds_to_srt_time (7/2) = "00:00:03,500" := by
    norm_num [seconds_to_srt_time, pyfloordiv, pymod, pyint] <;> decide
  constructor <;>
    (simp only [segments_to_srt, List.enum, List.enumFrom, List.map_cons, List.map_nil,
      List.flatten, h0, h15, h2, h35]
     decide)
